import Mathlib

/-
Shallow embedding of the UiPath-Analyser repository.

Source files embedded here:
  * src/workflow_analyzer_module.py  (XAMLParser, JSONConfigParser,
    WorkflowAnalyzer, analyze_workflow) — definitions carry the Python
    names, e.g. `XAMLParser.get_activities`.
  * src/main.py (class UiPathXAMLAnalyzer) — definitions are prefixed
    with `UiPathXAMLAnalyzer.`.

Modelling conventions:
  * An xml.etree.ElementTree element is `Element`: a tag in Clark
    notation (namespace URI between braces, written with \x7b/\x7d
    escapes), an attribute list, optional text, and ordered children.
  * `Element.iter` is Python's `root.iter()` (preorder, self included);
    `Element.descendants` is what `findall(".//…")` searches
    (all subelements, self excluded), in document order.
  * Python's length-based element truthiness (`if not self.root:` is
    true for a childless element) is modelled exactly.
  * String primitives (substring test, prefix test, …) are defined over
    character lists so that concrete instances evaluate by `decide`.
  * Machine floats only ever hold integral values here, so the health
    score is an `Int`.
-/

set_option maxRecDepth 8192

/-- An XML element as produced by xml.etree.ElementTree. -/
inductive Element where
  | mk (tag : String) (attrib : List (String × String)) (text : Option String)
       (children : List Element)

def Element.tag : Element → String
  | .mk t _ _ _ => t

def Element.attrib : Element → List (String × String)
  | .mk _ a _ _ => a

def Element.text : Element → Option String
  | .mk _ _ x _ => x

def Element.children : Element → List Element
  | .mk _ _ _ cs => cs

mutual

/-- Python `elem.iter()`: preorder traversal, the element itself first. -/
def Element.iter : Element → List Element
  | .mk t a x cs => .mk t a x cs :: iterList cs

def iterList : List Element → List Element
  | [] => []
  | e :: es => e.iter ++ iterList es

end

/-- The elements searched by `findall(".//…")`: all subelements of `e`
at any depth, `e` itself excluded, in document order. -/
def Element.descendants (e : Element) : List Element :=
  iterList e.children

/-- Python `elem.get(key)`. -/
def Element.get (e : Element) (key : String) : Option String :=
  (e.attrib.find? (fun kv => kv.1 == key)).map (·.2)

/-- Python `elem.get(key, dflt)`. -/
def Element.getD (e : Element) (key dflt : String) : String :=
  (e.get key).getD dflt

/-- Boolean prefix test on character lists. -/
def isPrefixL : List Char → List Char → Bool
  | [], _ => true
  | _ :: _, [] => false
  | p :: ps, c :: cs => p == c && isPrefixL ps cs

/-- Auxiliary scan for the substring test. -/
def containsAuxL (pat : List Char) : List Char → Bool
  | [] => isPrefixL pat []
  | c :: cs => isPrefixL pat (c :: cs) || containsAuxL pat cs

/-- Python `pat in s` (substring test). -/
def strContains (s pat : String) : Bool :=
  containsAuxL pat.toList s.toList

/-- Python `s.startswith(pre)`. -/
def strStartsWith (s pre : String) : Bool :=
  isPrefixL pre.toList s.toList

/-- Python `s.endswith(suf)`. -/
def strEndsWith (s suf : String) : Bool :=
  isPrefixL suf.toList.reverse s.toList.reverse

/-- The closing-brace character of Clark notation. -/
def rbraceChar : Char := Char.ofNat 125

/-- Clark-notation tag for local name `t` in namespace `uri`:
`"{" ++ uri ++ "}" ++ t`. -/
def qualTag (uri t : String) : String :=
  "\x7b" ++ uri ++ "\x7d" ++ t

/-- Python `tag.split('}')[-1] if '}' in tag else tag`: strip the
namespace part of a Clark-notation tag (everything after the last `}`). -/
def localName (tag : String) : String :=
  if tag.toList.contains rbraceChar then
    ⟨(tag.toList.reverse.takeWhile (fun c => c != rbraceChar)).reverse⟩
  else tag

/-- `value.startswith('http://') or value.startswith('https://')`. -/
def isHttpString (s : String) : Bool :=
  strStartsWith s "http://" || strStartsWith s "https://"

/-- Boolean code-point-wise lexicographic order on character lists —
the order Python's `sorted` uses on strings. -/
def charListLt : List Char → List Char → Bool
  | [], [] => false
  | [], _ :: _ => true
  | _ :: _, [] => false
  | c :: cs, d :: ds => c < d || (c == d && charListLt cs ds)

/-- Python's `<` on strings (code-point lexicographic). -/
def strLt (s t : String) : Bool :=
  charListLt s.toList t.toList

/-- Insert a string into a sorted duplicate-free list, keeping it sorted
and duplicate-free.  Folding this over a list models Python's
`sorted(list(set(…)))`. -/
def insertSorted (x : String) : List String → List String
  | [] => [x]
  | y :: ys =>
    if x = y then y :: ys
    else if strLt x y then x :: y :: ys
    else y :: insertSorted x ys

/-- `sorted(list(set(l)))` for strings (code-point order, as in Python). -/
def sortedSet (l : List String) : List String :=
  l.foldl (fun acc s => insertSorted s acc) []

/-- A word character in the sense of the regex `\b` boundary
(`\w` = letters, digits, underscore; contents relevant here are ASCII). -/
def isWordChar (c : Char) : Bool :=
  c.isAlphanum || c == '_'

/-- Whether position `i` of `cs` holds a word character (out of range
counts as non-word). -/
def wordAt (cs : List Char) (i : Nat) : Bool :=
  match cs.get? i with
  | some c => isWordChar c
  | none => false

/-- The regex `\b` word boundary at position `i` (between `cs[i-1]` and
`cs[i]`): exactly one side is a word character. -/
def boundaryAt (cs : List Char) (i : Nat) : Bool :=
  (if i = 0 then false else wordAt cs (i - 1)) != wordAt cs i

/-- `name` occurs literally at position `i` of `cs`. -/
def occursAt (cs name : List Char) (i : Nat) : Bool :=
  (cs.drop i).take name.length == name

/-- A match of the regex `\b<escaped name>\b` at position `i`. -/
def wbMatchAt (cs name : List Char) (i : Nat) : Bool :=
  occursAt cs name i && boundaryAt cs i && boundaryAt cs (i + name.length)

/-- Scanning loop of `re.findall`: non-overlapping matches, left to
right; after a match the scan resumes past it. -/
def wbCountAux (cs name : List Char) : Nat → Nat → Nat
  | _, 0 => 0
  | i, fuel + 1 =>
    if i > cs.length then 0
    else if wbMatchAt cs name i then
      1 + wbCountAux cs name (i + max name.length 1) fuel
    else
      wbCountAux cs name (i + 1) fuel

/-- `len(re.findall(r'\b' + re.escape(name) + r'\b', content))`. -/
def wbCount (content name : String) : Nat :=
  wbCountAux content.toList name.toList 0 (content.toList.length + 1)

/-! ## src/workflow_analyzer_module.py -/

/-- `Issue` dataclass of workflow_analyzer_module.py
(severity is one of "Critical", "High", "Medium", "Low"). -/
structure Issue where
  severity : String
  category : String
  title : String
  description : String
  location : String
  solution : String
deriving DecidableEq

/-- `Activity` dataclass of workflow_analyzer_module.py. -/
structure Activity where
  name : String
  type : String
  purpose : String
  inputs : List String := []
  outputs : List String := []
  is_error_handled : Bool := false
deriving DecidableEq

/-- One entry of the dict list returned by `XAMLParser.get_activities`. -/
structure ExtractedActivity where
  type : String
  name : String
  attributes : List (String × String)
deriving DecidableEq

/-- `WorkflowAnalysis` dataclass of workflow_analyzer_module.py. -/
structure WorkflowAnalysis where
  workflow_name : String
  workflow_purpose : String
  activities : List Activity
  vars : List String  -- source field name: `variables` (reserved in Lean)
  issues : List Issue
  recommendations : List String
  dependencies : List (String × String)
  overall_health_score : Int
  urls : List String
  components : List String
  prose_summary : String
deriving DecidableEq

/-- State of a successfully constructed `XAMLParser`: the parsed root (or
`none` before/after a failed parse) and the raw file text. -/
structure XAMLParser where
  root : Option Element
  raw_content : String

/-- The fixed tag allow-list in `XAMLParser.get_activities`. -/
def activityTagList : List String :=
  ["Sequence", "Flowchart", "ForEachRow", "If", "While",
   "NClick", "NTypeInto", "NGetText", "ReadRange", "WriteCell",
   "ExcelApplicationCard", "ExcelProcessScope", "SaveExcelFile",
   "TryCatch", "LogMessage", "OpenBrowser", "AttachBrowser"]

/-- The namespaced `x:TypeArguments` attribute key used by
`XAMLParser.get_variables` / `check_variables`. -/
def xamlTypeArgumentsAttr : String :=
  "\x7bhttp://schemas.microsoft.com/winfx/2006/xaml\x7dTypeArguments"

/-- The namespaced `x:String` tag scanned by `XAMLParser.get_urls`. -/
def xamlStringTag : String :=
  "\x7bhttp://schemas.microsoft.com/winfx/2006/xaml\x7dString"

/-- `XAMLParser.get_activities`: walk `root.iter()`, keep elements whose
local tag name is on the allow-list, record type, `DisplayName`
(default "Unknown") and the attribute dict.  `if not self.root:` is
Python element truthiness: `None` or a childless root short-circuits
to the empty list. -/
def XAMLParser.get_activities (p : XAMLParser) : List ExtractedActivity :=
  match p.root with
  | none => []
  | some r =>
    if r.children.isEmpty then []
    else
      r.iter.foldl (fun acc e =>
        let tag := localName e.tag
        if activityTagList.contains tag then
          acc ++ [⟨tag, e.getD "DisplayName" "Unknown", e.attrib⟩]
        else acc) []

/-- `XAMLParser.get_variables`: every element whose tag contains
"Variable"; name from `Name` (default "Unknown"), type from the
namespaced `x:TypeArguments` attribute (default "Unknown"). -/
def XAMLParser.get_variables (p : XAMLParser) : List (String × String) :=
  match p.root with
  | none => []
  | some r =>
    if r.children.isEmpty then []
    else
      r.iter.filterMap (fun e =>
        if strContains e.tag "Variable" then
          some (e.getD "Name" "Unknown", e.getD xamlTypeArgumentsAttr "Unknown")
        else none)

/-- `'Url' in attr_name or 'Uri' in attr_name or 'Endpoint' in attr_name`. -/
def urlAttrNameHit (k : String) : Bool :=
  strContains k "Url" || strContains k "Uri" || strContains k "Endpoint"

/-- The strings `XAMLParser.get_urls` adds to its accumulated set, in
visit order: for every attribute, once under the attribute-name check and
once under the unconditional `startswith('http')` check (both guarded by
the value starting with `http://`/`https://`), then the text of every
namespaced `x:String` element that starts with `http://`/`https://`. -/
def collectUrls (r : Element) : List String :=
  (r.iter.flatMap fun e =>
    e.attrib.flatMap fun kv =>
      (if urlAttrNameHit kv.1 && isHttpString kv.2 then [kv.2] else []) ++
      (if isHttpString kv.2 then [kv.2] else []))
  ++ (r.iter.filterMap fun e =>
      if e.tag == xamlStringTag then
        match e.text with
        | some t => if isHttpString t then some t else none
        | none => none
      else none)

/-- `XAMLParser.get_urls`: `sorted(list(urls))` of the accumulated set. -/
def XAMLParser.get_urls (p : XAMLParser) : List String :=
  match p.root with
  | none => []
  | some r =>
    if r.children.isEmpty then []
    else sortedSet (collectUrls r)

/-- The JSON values `JSONConfigParser` reads out of project.json via
`config.get(…)`: each key may be absent. -/
structure ConfigData where
  name : Option String
  description : Option String
  projectVersion : Option String
  dependencies : List (String × String)
deriving DecidableEq

/-- Outcome of attempting to read the metadata sidecar file.  `parsedOk
none` is a syntactically valid but empty JSON object (falsy in Python,
like the initial `self.config = {}`). -/
inductive SidecarOutcome where
  | noPath
  | missing
  | unreadable
  | malformed
  | parsedOk (config : Option ConfigData)
deriving DecidableEq

/-- `JSONConfigParser.parse`: the returned success flag and the resulting
`self.config`.  No path, a missing file and malformed JSON all return
`True` and leave the config empty; any other read error returns `False`
(also leaving the config empty). -/
def JSONConfigParser.parse : SidecarOutcome → Bool × Option ConfigData
  | .noPath => (true, none)
  | .missing => (true, none)
  | .malformed => (true, none)
  | .unreadable => (false, none)
  | .parsedOk c => (true, c)

/-- The dict returned by `JSONConfigParser.get_project_info` when the
config is non-empty. -/
structure ProjectInfo where
  name : String
  description : String
  version : String
deriving DecidableEq

/-- `JSONConfigParser.get_project_info`: `{}` (here `none`) for an empty
config, else name/description/projectVersion with defaults. -/
def JSONConfigParser.get_project_info (config : Option ConfigData) : Option ProjectInfo :=
  config.map fun c =>
    ⟨c.name.getD "Unknown", c.description.getD "", c.projectVersion.getD ""⟩

/-- `JSONConfigParser.get_dependencies`. -/
def JSONConfigParser.get_dependencies (config : Option ConfigData) : List (String × String) :=
  (config.map (·.dependencies)).getD []

/-- `project_info.get('name', 'Unknown')` as used by
`WorkflowAnalyzer.analyze` and `_detect_workflow_purpose`. -/
def projectNameOf (config : Option ConfigData) : String :=
  ((JSONConfigParser.get_project_info config).map ProjectInfo.name).getD "Unknown"

/-- The Issue appended by `_detect_issues` when no TryCatch activity was
extracted and more than 5 activities exist. -/
def missing_error_handler_issue : Issue :=
  { severity := "High"
    category := "Error Handling"
    title := "Error Handler Eksikliği"
    description := "İş akışında hiçbir \x22Try Catch\x22 aktivitesi bulunmamaktadır. Bu durum, beklenmedik hataların süreci tamamen durdurmasına neden olabilir."
    location := "Genel İş Akışı"
    solution := "Projenin ana adımlarını veya hata potansiyeli taşıyan (örn: UI etkileşimleri, API çağrıları) kısımları \x22Try Catch\x22 blokları içine alarak hata yönetimini iyileştirin." }

/-- The Issue built inside `_check_for_improper_error_logging`. -/
def improper_log_issue (tcName logName : String) : Issue :=
  { severity := "Medium"
    category := "Logging"
    title := "Hatalı Loglama Seviyesi"
    description := "\x27" ++ tcName ++ "\x27 aktivitesinin hata yakalama (Catch) bloğunda, bir hata durumu \x27" ++ logName ++ "\x27 aktivitesi ile \x27Info\x27 veya \x27Trace\x27 seviyesinde loglanıyor. Bu durum, gerçek hataların gözden kaçmasına neden olabilir."
    location := "TryCatch: \x27" ++ tcName ++ "\x27 -> Catch bloğu"
    solution := "İlgili \x27" ++ logName ++ "\x27 aktivitesinin \x27Level\x27 özelliğini \x27Warn\x27 veya \x27Error\x27 olarak değiştirerek hatanın ciddiyetini doğru şekilde yansıtın." }

/-- "Boş Try Bloğu" Issue of `_find_empty_blocks`. -/
def empty_try_issue (tcName : String) : Issue :=
  { severity := "Medium", category := "Logic Error", title := "Boş Try Bloğu"
    description := "\x27" ++ tcName ++ "\x27 aktivitesinin \x27Try\x27 bölümü boş. İçinde aktivite olmayan bir \x27Try\x27 bloğu bir işe yaramaz."
    location := "TryCatch: \x27" ++ tcName ++ "\x27"
    solution := "\x27Try\x27 bloğuna çalıştırılacak aktiviteleri ekleyin veya bu \x27TryCatch\x27 aktivitesini kaldırın." }

/-- "Boş Catch Bloğu" Issue of `_find_empty_blocks`. -/
def empty_catch_issue (tcName : String) : Issue :=
  { severity := "High", category := "Logic Error", title := "Boş Catch Bloğu"
    description := "\x27" ++ tcName ++ "\x27 aktivitesindeki bir \x27Catch\x27 bloğu boş. Hataları sessizce yutmak, hata ayıklamayı imkansız hale getirir ve beklenmedik davranışlara yol açar."
    location := "TryCatch: \x27" ++ tcName ++ "\x27"
    solution := "Hata durumunda ne yapılması gerektiğini belirtin. En azından hatayı \x27Log Message\x27 (Error seviyesiyle) ile loglayın." }

/-- "Boş Then Bloğu" Issue of `_find_empty_blocks`. -/
def empty_then_issue (ifName : String) : Issue :=
  { severity := "Low", category := "Logic Error", title := "Boş Then Bloğu"
    description := "\x27" ++ ifName ++ "\x27 aktivitesinin \x27Then\x27 (O zaman) bölümü boş. Bu, tamamlanmamış bir mantığa işaret ediyor olabilir."
    location := "If: \x27" ++ ifName ++ "\x27"
    solution := "Koşul doğru olduğunda çalıştırılacak mantığı \x27Then\x27 bloğuna ekleyin veya \x27If\x27 koşulunu yeniden değerlendirin." }

/-- "Boş Else Bloğu" Issue of `_find_empty_blocks`. -/
def empty_else_issue (ifName : String) : Issue :=
  { severity := "Low", category := "Logic Error", title := "Boş Else Bloğu"
    description := "\x27" ++ ifName ++ "\x27 aktivitesinin \x27Else\x27 (Değilse) bölümü boş. Bu bir hata olmasa da, genellikle gereksiz bir daldır."
    location := "If: \x27" ++ ifName ++ "\x27"
    solution := "Eğer \x27Else\x27 durumu için bir mantık gerekmiyorsa, bu bloğu boş bırakmak yerine tamamen kaldırın." }

/-- "Kullanılmayan Değişken" Issue of `_find_unused_variables`. -/
def unused_variable_issue (varName varType : String) : Issue :=
  { severity := "Low", category := "Code Smell", title := "Kullanılmayan Değişken"
    description := "\x27" ++ varName ++ "\x27 (" ++ varType ++ ") değişkeni tanımlanmış ancak iş akışının hiçbir yerinde kullanılmamış."
    location := "Değişkenler Paneli"
    solution := "Eğer bu değişkene gerçekten ihtiyaç yoksa, kodun daha temiz ve anlaşılır olması için kaldırın." }

/-- `root.findall('.//{*}name')`: all descendants whose local tag name is
`name`, in any (or no) namespace. -/
def wildcardDescendants (r : Element) (name : String) : List Element :=
  r.descendants.filter (fun e => localName e.tag == name)

/-- `elem.find('{*}name')`: first direct child with local tag `name`. -/
def firstChildWildcard (e : Element) (name : String) : Option Element :=
  e.children.find? (fun c => localName c.tag == name)

/-- `WorkflowAnalyzer._check_for_improper_error_logging`: inside each
Catch block of each TryCatch, flag LogMessage activities whose `Level`
is absent or whose level string contains "Info" or "Trace". -/
def WorkflowAnalyzer.check_for_improper_error_logging (p : XAMLParser) : List Issue :=
  match p.root with
  | none => []
  | some root =>
    (wildcardDescendants root "TryCatch").flatMap fun tc =>
      match firstChildWildcard tc "TryCatch.Catches" with
      | none => []
      | some catches =>
        catches.children.flatMap fun catchElem =>
          if strEndsWith catchElem.tag "Catch" then
            (wildcardDescendants catchElem "LogMessage").filterMap fun lm =>
              if (match lm.get "Level" with
                  | none => true
                  | some lvl => strContains lvl "Info" || strContains lvl "Trace") then
                some (improper_log_issue (tc.getD "DisplayName" "Try Catch")
                                         (lm.getD "DisplayName" "Log Message"))
              else none
          else []

/-- `WorkflowAnalyzer._find_empty_blocks`. -/
def WorkflowAnalyzer.find_empty_blocks (root : Element) : List Issue :=
  ((wildcardDescendants root "TryCatch").flatMap fun tc =>
    (match firstChildWildcard tc "TryCatch.Try" with
     | none => [empty_try_issue (tc.getD "DisplayName" "Try Catch")]
     | some tryElem =>
       if tryElem.children.isEmpty then
         [empty_try_issue (tc.getD "DisplayName" "Try Catch")]
       else [])
    ++ (match firstChildWildcard tc "TryCatch.Catches" with
        | none => []
        | some catches =>
          catches.children.flatMap fun catchElem =>
            match firstChildWildcard catchElem "ActivityAction" with
            | none => [empty_catch_issue (tc.getD "DisplayName" "Try Catch")]
            | some action =>
              match action.children with
              | [] => [empty_catch_issue (tc.getD "DisplayName" "Try Catch")]
              | [c] =>
                if c.children.isEmpty then
                  [empty_catch_issue (tc.getD "DisplayName" "Try Catch")]
                else []
              | _ => []))
  ++ ((wildcardDescendants root "If").flatMap fun ifElem =>
      (match firstChildWildcard ifElem "If.Then" with
       | none => [empty_then_issue (ifElem.getD "DisplayName" "If")]
       | some thenElem =>
         match thenElem.children with
         | [] => [empty_then_issue (ifElem.getD "DisplayName" "If")]
         | [c] =>
           if c.children.isEmpty then
             [empty_then_issue (ifElem.getD "DisplayName" "If")]
           else []
         | _ => [])
      ++ (match firstChildWildcard ifElem "If.Else" with
          | none => []
          | some elseElem =>
            if elseElem.children.isEmpty then
              [empty_else_issue (ifElem.getD "DisplayName" "If")]
            else []))

/-- `WorkflowAnalyzer._find_unused_variables`: one Issue per declared
variable whose name has at most one word-boundary occurrence in the raw
document text. -/
def WorkflowAnalyzer.find_unused_variables (p : XAMLParser) : List Issue :=
  p.get_variables.filterMap fun v =>
    if wbCount p.raw_content v.1 ≤ 1 then
      some (unused_variable_issue v.1 v.2)
    else none

/-- `WorkflowAnalyzer._find_logic_flaws` (the guard is a real `is None`
check, not truthiness). -/
def WorkflowAnalyzer.find_logic_flaws (p : XAMLParser) : List Issue :=
  match p.root with
  | none => []
  | some root =>
    WorkflowAnalyzer.find_empty_blocks root ++ WorkflowAnalyzer.find_unused_variables p

/-- `WorkflowAnalyzer._detect_issues`. -/
def WorkflowAnalyzer.detect_issues (p : XAMLParser) : List Issue :=
  (if ¬ (p.get_activities.any fun a => a.type == "TryCatch")
      ∧ p.get_activities.length > 5 then
     [missing_error_handler_issue]
   else [])
  ++ WorkflowAnalyzer.check_for_improper_error_logging p
  ++ WorkflowAnalyzer.find_logic_flaws p

/-- `_generate_recommendations` text 1 (missing global error handling). -/
def rec_error_handling : String :=
  "Global Error Handling Ekleyin: Projenin ana adımlarını bir \x27Try Catch\x27 aktivitesi içine alarak beklenmedik hatalara karşı (örn: uygulama çökmeleri, selektör bulunamaması) projenizi daha dayanıklı hale getirin. \x27Catch\x27 bölümünde hatayı loglayıp, süreci kontrollü bir şekilde sonlandırabilir veya alternatif bir akış başlatabilirsiniz."

/-- `_generate_recommendations` text 2 (no logging at all). -/
def rec_logging_none : String :=
  "Süreç Takibi için Loglama Yapın: İş akışının başlangıcına ve sonuna \x27Log Message\x27 (Level: Info) ekleyerek sürecin ne zaman başlayıp bittiğini ve ne kadar sürdüğünü takip edin. Ayrıca, önemli adımlardan (örn: bir dosyayı işledikten sonra, bir API çağrısından önce) sonra loglama yapmak, hata ayıklamayı büyük ölçüde kolaylaştırır."

/-- `_generate_recommendations` text 2b (too little logging). -/
def rec_logging_few : String :=
  "Loglamayı Detaylandırın: Mevcut loglama yetersiz olabilir. \x27Catch\x27 blokları içinde hatanın detayını (Exception.Message, Exception.Source) \x27Log Message\x27 (Level: Error) ile logladığınızdan emin olun. Ayrıca, iş akışındaki kritik parametreleri ve karar noktalarını da loglayarak sürecin akışını daha şeffaf hale getirin."

/-- `_generate_recommendations` text 3a (UI activities missing timeouts),
parameterised by the joined quoted activity names. -/
def rec_timeout_missing (joinedNames : String) : String :=
  "Zaman Aşımı (Timeout) Ayarlarını Belirtin: " ++ joinedNames ++ " gibi UI etkileşim aktivitelerinde özel bir timeout değeri belirtilmemiş. Hedef uygulamanın yavaş yanıt vermesi durumunda robotun gereksiz yere uzun süre beklemesini veya erken hata vermesini önlemek için bu aktivitelere makul bir \x27TimeoutMS\x27 değeri (örn: 10000 for 10s) atayın."

/-- `_generate_recommendations` text 3b (all UI activities have timeouts). -/
def rec_timeout_review : String :=
  "Zaman Aşımı (Timeout) Ayarlarını Gözden Geçirin: Tüm UI aktivitelerinde timeout değeri belirtilmiş olsa da, bu değerlerin uygulamanın gerçek performansına uygun olup olmadığını kontrol edin. Çok kısa timeoutlar stabilite sorunlarına, çok uzun timeoutlar ise performans düşüşüne neden olabilir."

/-- `_generate_recommendations` fallback text. -/
def rec_fallback : String :=
  "Genel bir iyileştirme önerisi bulunamadı. Kodunuz iyi görünüyor!"

/-- The `ui_activity_types` list of `_generate_recommendations`. -/
def ui_activity_types : List String :=
  ["Click", "TypeInto", "NClick", "NTypeInto", "NGetText",
   "OpenBrowser", "AttachBrowser", "UseApplicationBrowser"]

/-- `key in act['attributes']` (dict key membership). -/
def hasAttrKey (attrs : List (String × String)) (k : String) : Bool :=
  attrs.any (·.1 == k)

/-- `WorkflowAnalyzer._generate_recommendations`. -/
def WorkflowAnalyzer.generate_recommendations (p : XAMLParser) : List String :=
  let activities := p.get_activities
  let recs :=
    (if ¬ (activities.any fun a => a.type == "TryCatch") ∧ activities.length > 5 then
       [rec_error_handling]
     else [])
    ++ (if ¬ (activities.any fun a => a.type == "LogMessage") then [rec_logging_none]
        else if (activities.filter fun a => a.type == "LogMessage").length < 3 then
          [rec_logging_few]
        else [])
    ++ (let to_check := activities.filter fun a => ui_activity_types.contains a.type
        if to_check.isEmpty then []
        else
          let without := to_check.filter fun a =>
            ¬ hasAttrKey a.attributes "TimeoutMS" ∧ ¬ hasAttrKey a.attributes "Timeout"
          if without.isEmpty then [rec_timeout_review]
          else [rec_timeout_missing
            (String.intercalate ", " (without.map fun a => "\x27" ++ a.name ++ "\x27"))])
  if recs.isEmpty then [rec_fallback] else recs

/-- `WorkflowAnalyzer._get_activity_purpose`. -/
def WorkflowAnalyzer.get_activity_purpose (t : String) : String :=
  if t == "Sequence" then "Adımları sırasıyla çalıştırır"
  else if t == "ForEachRow" then "Veri tablosunun her satırında döngü yapar"
  else if t == "NClick" then "UI elementine tıklar"
  else if t == "NTypeInto" then "UI elementine metin yazı"
  else if t == "NGetText" then "UI elementinden metin okur"
  else if t == "ReadRange" then "Excel alanını okur"
  else "Bilinmeyen aktivite"

/-- `WorkflowAnalyzer._extract_activities`. -/
def WorkflowAnalyzer.extract_activities (p : XAMLParser) : List Activity :=
  p.get_activities.map fun a =>
    { name := a.name, type := a.type
      purpose := WorkflowAnalyzer.get_activity_purpose a.type }

/-- `WorkflowAnalyzer._extract_variables`: rendered "name (type)". -/
def WorkflowAnalyzer.extract_variables (p : XAMLParser) : List String :=
  p.get_variables.map fun v => v.1 ++ " (" ++ v.2 ++ ")"

/-- `WorkflowAnalyzer._detect_workflow_purpose`.  The Python code tests
`'NClick' in str(activity_types)` on the set's string representation; for
the allow-listed type names this coincides with set membership, which is
what is modelled. -/
def WorkflowAnalyzer.detect_workflow_purpose (p : XAMLParser) (config : Option ConfigData) : String :=
  let types := p.get_activities.map (·.type)
  "Proje: " ++ projectNameOf config ++ "\n"
  ++ (if types.contains "NClick" || types.contains "NTypeInto" || types.contains "NGetText" then
        "- Web Automation\n" else "")
  ++ (if types.contains "ReadRange" || types.contains "WriteCell" then
        "- Excel İşleme\n" else "")
  ++ (if types.contains "ForEachRow" then "- Toplu İşleme\n" else "")

/-- `WorkflowAnalyzer._generate_prose_summary`.  The Python `actions` set
is joined in hash order; it is modelled as the (duplicate-free) insertion
order, which fixes one of the possible renderings. -/
def WorkflowAnalyzer.generate_prose_summary (activities : List Activity) : String :=
  if activities.isEmpty then
    "İş akışı hakkında bir özet oluşturmak için yeterli aktivite bulunamadı."
  else
    let types := activities.map (·.type)
    let anyIn := fun (cands : List String) => cands.any fun t => types.contains t
    let is_web := anyIn ["OpenBrowser", "NClick", "NTypeInto", "NGetText",
                         "Click", "TypeInto", "GetText", "UseApplicationBrowser"]
    let is_excel := anyIn ["ReadRange", "WriteCell", "ExcelApplicationCard",
                           "ExcelProcessScope", "UseExcelFile"]
    let is_data := types.contains "ForEachRow"
    let head :=
      if is_web && is_excel then
        "Bu iş akışı, bir Excel dosyasındaki verileri okuyup bu verileri bir web uygulamasına giren veya web\x27den alıp Excel\x27e yazan karma bir otomasyon süreci gibi görünmektedir."
      else if is_web then
        "Bu iş akışı, bir web sitesi veya masaüstü uygulamasıyla etkileşime giren bir UI otomasyonu sürecidir."
      else if is_excel then
        "Bu iş akışı, bir Excel dosyası üzerinde okuma, yazma veya düzenleme işlemleri yapan bir otomasyon sürecidir."
      else
        "Bu, tanımlanmış adımları belirli bir sırada yürüten genel bir iş akışıdır."
    let start :=
      if types.contains "OpenBrowser" || types.contains "UseApplicationBrowser" then
        ["Süreç, bir web tarayıcısı açarak veya mevcut bir tarayıcıyı kullanarak başlar."]
      else if types.contains "ExcelApplicationCard" || types.contains "ExcelProcessScope"
              || types.contains "UseExcelFile" then
        ["Süreç, bir Excel dosyasıyla çalışarak başlar."]
      else []
    let loopPart :=
      if is_data then
        ["Ardından, bir veri tablosundaki her satır için bir dizi eylemi döngüsel olarak tekrar eder."]
      else []
    let actions :=
      (if anyIn ["NClick", "Click"] then ["butonlara tıklama"] else [])
      ++ (if anyIn ["NTypeInto", "TypeInto"] then ["form alanlarına veri girme"] else [])
      ++ (if anyIn ["NGetText", "GetText"] then ["ekrandan metin okuma"] else [])
      ++ (if types.contains "ReadRange" then ["Excel\x27den toplu veri okuma"] else [])
      ++ (if types.contains "WriteCell" then ["Excel\x27e tekil veri yazma"] else [])
    let actionsPart :=
      if actions.isEmpty then []
      else ["Temel işlemler arasında " ++ String.intercalate ", " actions
            ++ " gibi eylemler bulunmaktadır."]
    let tcPart :=
      if types.contains "TryCatch" then
        ["İş akışı, olası hataları yönetmek için hata yakalama blokları (\x27Try Catch\x27) içermektedir, bu da onu çalışma zamanı hatalarına karşı daha dayanıklı kılar."]
      else []
    String.intercalate " " ([head] ++ start ++ loopPart ++ actionsPart ++ tcPart ++
      ["Bu özet, aktivite türlerine dayalı otomatik bir çıkarımdır ve iş akışının karmaşık mantığını tam olarak yansıtmayabilir."])

/-- `WorkflowAnalyzer._calculate_health_score`: start at 100, subtract 15
per High and 10 per Medium issue, floor at 0.  (Python uses a float that
only ever holds integral values.) -/
def WorkflowAnalyzer.calculate_health_score (issues : List Issue) : Int :=
  max 0 (issues.foldl (fun s i =>
    if i.severity == "High" then s - 15
    else if i.severity == "Medium" then s - 10
    else s) 100)

/-- `WorkflowAnalyzer.analyze`. -/
def WorkflowAnalyzer.analyze (p : XAMLParser) (config : Option ConfigData) : WorkflowAnalysis :=
  let activities := WorkflowAnalyzer.extract_activities p
  let issues := WorkflowAnalyzer.detect_issues p
  { workflow_name := projectNameOf config
    workflow_purpose := WorkflowAnalyzer.detect_workflow_purpose p config
    activities := activities
    vars := WorkflowAnalyzer.extract_variables p
    issues := issues
    recommendations := WorkflowAnalyzer.generate_recommendations p
    dependencies := JSONConfigParser.get_dependencies config
    overall_health_score := WorkflowAnalyzer.calculate_health_score issues
    urls := p.get_urls
    components := sortedSet (activities.map (·.type))
    prose_summary := WorkflowAnalyzer.generate_prose_summary activities }

/-- `analyze_workflow(xaml_path)`: the XML-parse capability is abstracted
as the input — `none` models a file that is not well-formed XML (where
`XAMLParser.parse` returns False and a ValueError is raised), `some`
carries the parsed root and the raw text.  No metadata path is passed, so
the dummy `JSONConfigParser()` yields an empty config. -/
def analyze_workflow (parseResult : Option (Element × String)) : Except String WorkflowAnalysis :=
  match parseResult with
  | none => Except.error "XAML dosyası parse edilemedi"
  | some (root, raw) =>
    Except.ok (WorkflowAnalyzer.analyze ⟨some root, raw⟩
      (JSONConfigParser.parse SidecarOutcome.noPath).2)

/-! ## src/main.py (class UiPathXAMLAnalyzer)

State modelled explicitly: `namespaces` is the prefix → URI table built
by `load_xaml` from the document's namespace declarations, `root` the
parsed document root. -/

/-- `Issue` dataclass of main.py (severity is CRITICAL/WARNING/INFO). -/
structure UiPathXAMLAnalyzer.Issue where
  severity : String
  category : String
  description : String
  location : String
  suggestion : String
deriving DecidableEq

/-- `UiPathXAMLAnalyzer.find_all_elements(tag)`: for each namespace URI
in the table, `root.findall(f".//{{{ns_uri}}}{tag}")`, concatenated.
There is no wildcard fallback and un-namespaced tags are never found. -/
def UiPathXAMLAnalyzer.find_all_elements (namespaces : List (String × String))
    (root : Element) (tag : String) : List Element :=
  namespaces.flatMap fun ns =>
    root.descendants.filter fun e => e.tag == qualTag ns.2 tag

/-- `UiPathXAMLAnalyzer._find_nested_elements(parent, tag_names)`. -/
def UiPathXAMLAnalyzer.find_nested_elements (namespaces : List (String × String))
    (parent : Element) (tag_names : List String) : List Element :=
  tag_names.flatMap fun t =>
    namespaces.flatMap fun ns =>
      parent.descendants.filter fun e => e.tag == qualTag ns.2 t

/-- The CRITICAL issue of `check_error_handling` (zero Try-Catch found). -/
def UiPathXAMLAnalyzer.no_trycatch_issue : UiPathXAMLAnalyzer.Issue :=
  { severity := "CRITICAL", category := "Error Handling"
    description := "Hiçbir Try-Catch bloğu bulunamadı"
    location := "Tüm workflow"
    suggestion := "Ana iş akışına ve kritik işlemlere Try-Catch ekleyin. Özellikle Excel, Browser ve Loop işlemlerini koruyun." }

/-- The WARNING issue of `check_error_handling` (too few Try-Catch). -/
def UiPathXAMLAnalyzer.sparse_trycatch_issue (tcCount total : Nat) : UiPathXAMLAnalyzer.Issue :=
  { severity := "WARNING", category := "Error Handling"
    description := "Yetersiz hata yönetimi: " ++ toString tcCount ++ " Try-Catch, "
      ++ toString total ++ " aktivite için"
    location := "Çeşitli lokasyonlar"
    suggestion := "Kritik işlemlere daha fazla hata yönetimi ekleyin" }

/-- `UiPathXAMLAnalyzer.check_error_handling`.  Python compares
`len(try_catch_elements) < total_activities / 2` with true division;
for integers that is `2 * len < total`. -/
def UiPathXAMLAnalyzer.check_error_handling (namespaces : List (String × String))
    (root : Element) : List UiPathXAMLAnalyzer.Issue :=
  let try_catch_elements := UiPathXAMLAnalyzer.find_all_elements namespaces root "TryCatch"
  let total_activities :=
    (UiPathXAMLAnalyzer.find_all_elements namespaces root "Sequence").length
    + (UiPathXAMLAnalyzer.find_all_elements namespaces root "Flowchart").length
  if try_catch_elements.length = 0 then
    [UiPathXAMLAnalyzer.no_trycatch_issue]
  else if 2 * try_catch_elements.length < total_activities then
    [UiPathXAMLAnalyzer.sparse_trycatch_issue try_catch_elements.length total_activities]
  else []

/-- The CRITICAL issue of `check_excel_operations` (Excel scope inside a
ForEachRow loop). -/
def UiPathXAMLAnalyzer.scope_in_loop_issue : UiPathXAMLAnalyzer.Issue :=
  { severity := "CRITICAL", category := "Performance"
    description := "Excel Process Scope/Application Card döngü içinde bulundu"
    location := "ForEachRow içinde"
    suggestion := "Excel dosyasını döngü DIŞINDA açın, sadece Write işlemini döngü içinde yapın. Bu 10-100x performans artışı sağlar." }

/-- The WARNING issue of `check_excel_operations` (AutoIncrementRow). -/
def UiPathXAMLAnalyzer.auto_increment_issue : UiPathXAMLAnalyzer.Issue :=
  { severity := "WARNING", category := "Excel Operations"
    description := "AutoIncrementRow kullanılıyor"
    location := "WriteCellX aktivitesi"
    suggestion := "AutoIncrement yerine satır indeksi ile çalışmayı düşünün. Daha kontrollü ve tahmin edilebilir." }

/-- `UiPathXAMLAnalyzer.check_excel_operations`.  (The source also reads
`ExcelProcessScopeX` and `ExcelApplicationCard` element lists into local
variables it never uses; only the loop search and the WriteCellX check
have any effect.) -/
def UiPathXAMLAnalyzer.check_excel_operations (namespaces : List (String × String))
    (root : Element) : List UiPathXAMLAnalyzer.Issue :=
  let for_each_rows := UiPathXAMLAnalyzer.find_all_elements namespaces root "ForEachRow"
  let write_cells := UiPathXAMLAnalyzer.find_all_elements namespaces root "WriteCellX"
  (for_each_rows.flatMap fun loop =>
    if (UiPathXAMLAnalyzer.find_nested_elements namespaces loop
          ["ExcelProcessScopeX", "ExcelApplicationCard"]).isEmpty then []
    else [UiPathXAMLAnalyzer.scope_in_loop_issue])
  ++ (write_cells.flatMap fun wc =>
      if wc.getD "AutoIncrementRow" "False" == "True" then
        [UiPathXAMLAnalyzer.auto_increment_issue]
      else [])

/-- Python `str.strip()` (whitespace trimmed from both ends). -/
def pyStrip (s : String) : String :=
  ⟨((s.toList.dropWhile Char.isWhitespace).reverse.dropWhile Char.isWhitespace).reverse⟩

/-- ASCII double quote. -/
def dquoteChar : Char := Char.ofNat 34

/-- ASCII single quote. -/
def squoteChar : Char := Char.ofNat 39

/-- A character admitted by `[^\s"'\]]` in the URL regex of main.py. -/
def urlBodyChar (c : Char) : Bool :=
  !c.isWhitespace && c != dquoteChar && c != squoteChar && c != ']'

/-- `"https://".toList`. -/
def httpsPrefixL : List Char := "https://".toList

/-- `"http://".toList`. -/
def httpPrefixL : List Char := "http://".toList

/-- Left-to-right non-overlapping scan of `re.findall` for the pattern
`https?://[^\s"'\]]+`: at each position try the prefix (with `s` first,
then without), require at least one body character, and resume after a
match. -/
def urlFindAllAux : List Char → Nat → List (List Char)
  | _, 0 => []
  | [], _ + 1 => []
  | c :: rest, fuel + 1 =>
    if isPrefixL httpsPrefixL (c :: rest) then
      let body := ((c :: rest).drop 8).takeWhile urlBodyChar
      if body.isEmpty then urlFindAllAux rest fuel
      else (httpsPrefixL ++ body) :: urlFindAllAux (((c :: rest).drop 8).drop body.length) fuel
    else if isPrefixL httpPrefixL (c :: rest) then
      let body := ((c :: rest).drop 7).takeWhile urlBodyChar
      if body.isEmpty then urlFindAllAux rest fuel
      else (httpPrefixL ++ body) :: urlFindAllAux (((c :: rest).drop 7).drop body.length) fuel
    else urlFindAllAux rest fuel

/-- `url_pattern.findall(value)` for `https?://[^\s"'\]]+`. -/
def url_pattern_findall (s : String) : List String :=
  (urlFindAllAux s.toList s.toList.length).map fun l => ⟨l⟩

/-- `UiPathXAMLAnalyzer.extract_urls`: the strings added to `self.urls`
(a Python set — membership in this list is what set membership is).
An attribute whose name contains "Url" or "Uri" has its stripped value
added unconditionally; every attribute value is additionally scanned
with the URL regex. -/
def UiPathXAMLAnalyzer.extract_urls (root : Element) : List String :=
  root.iter.flatMap fun e =>
    e.attrib.flatMap fun kv =>
      (if (strContains kv.1 "Url" || strContains kv.1 "Uri") && kv.2 != "" then
         [pyStrip kv.2]
       else [])
      ++ url_pattern_findall kv.2

/-- `a`–`z` (the regex class `[a-z]`). -/
def isLowerAZ (c : Char) : Bool := 97 ≤ c.toNat && c.toNat ≤ 122

/-- `A`–`Z` (the regex class `[A-Z]`). -/
def isUpperAZ (c : Char) : Bool := 65 ≤ c.toNat && c.toNat ≤ 90

/-- The regex class `[a-z0-9]`. -/
def isLowerDigit (c : Char) : Bool :=
  isLowerAZ c || (48 ≤ c.toNat && c.toNat ≤ 57)

/-- Matcher for `([A-Z][a-z0-9]+)*$` (greedy matching is exact here
because the character classes are disjoint).  Fuel-based so that concrete
instances evaluate; `l.length` fuel always suffices. -/
def groupsMatchAux : Nat → List Char → Bool
  | _, [] => true
  | 0, _ :: _ => false
  | fuel + 1, c :: cs =>
    if isUpperAZ c then
      let run := cs.takeWhile isLowerDigit
      if run.isEmpty then false
      else groupsMatchAux fuel (cs.drop run.length)
    else false

/-- Matcher for `^[a-z]+([A-Z][a-z0-9]+)*$`. -/
def camelCaseMatch (l : List Char) : Bool :=
  let run := l.takeWhile isLowerAZ
  !run.isEmpty && groupsMatchAux l.length (l.drop run.length)

/-- Matcher for `^[A-Z][a-z0-9]+([A-Z][a-z0-9]+)*$`. -/
def pascalCaseMatch : List Char → Bool
  | [] => false
  | c :: cs =>
    isUpperAZ c &&
      (let run := cs.takeWhile isLowerDigit
       !run.isEmpty && groupsMatchAux cs.length (cs.drop run.length))

/-- `re.match(r"^[a-z]+([A-Z][a-z0-9]+)*$|^[A-Z][a-z0-9]+([A-Z][a-z0-9]+)*$", name)`. -/
def namingConventionMatch (s : String) : Bool :=
  camelCaseMatch s.toList || pascalCaseMatch s.toList

/-- The INFO issue of `check_variables`. -/
def UiPathXAMLAnalyzer.naming_issue (name : String) : UiPathXAMLAnalyzer.Issue :=
  { severity := "INFO", category := "Naming Convention"
    description := "Değişken ismi convention\x27a uymuyor: " ++ name
    location := "Variable tanımı"
    suggestion := "camelCase (örn: \x27kullaniciAdi\x27) veya PascalCase (örn: \x27KullaniciAdi\x27) kullanın." }

/-- `UiPathXAMLAnalyzer.check_variables`.  The list comprehension
evaluates `self.namespaces['x']` once per found Variable element, so with
at least one Variable and no `x` prefix in the namespace table the method
raises a `KeyError` (modelled as `Except.error`); with no Variable
elements the subscript is never evaluated. -/
def UiPathXAMLAnalyzer.check_variables (namespaces : List (String × String))
    (root : Element) : Except String (List UiPathXAMLAnalyzer.Issue) :=
  let vars := UiPathXAMLAnalyzer.find_all_elements namespaces root "Variable"
  match vars with
  | [] => Except.ok []
  | _ =>
    match namespaces.find? (fun p => p.1 == "x") with
    | none => Except.error "KeyError: \x27x\x27"
    | some _ =>
      Except.ok <| vars.filterMap fun v =>
        match v.get "Name" with
        | none => none
        | some name =>
          if name == "" then none
          else if ¬ namingConventionMatch name ∧ name.length > 3 then
            some (UiPathXAMLAnalyzer.naming_issue name)
          else none

/-- Number of issues of a given severity (used to state the scoring
formula). -/
def countSeverity (issues : List Issue) (sev : String) : Nat :=
  (issues.filter fun i => i.severity == sev).length

/-! ## Concrete documents used by witnesses and counterexamples -/

/-- A one-entry namespace table. -/
def exNs2 : List (String × String) := [("default", "http://ns")]

/-- An empty root element (no children) in a declared namespace. -/
def exDoc2 : Element := .mk (qualTag "http://ns" "Activity") [] none []

/-- A root with six Sequence children: more than five allow-listed
activities, no TryCatch anywhere. -/
def exDoc2b : Element :=
  .mk "Activity" [] none
    [.mk "Sequence" [] none [], .mk "Sequence" [] none [],
     .mk "Sequence" [] none [], .mk "Sequence" [] none [],
     .mk "Sequence" [] none [], .mk "Sequence" [] none []]

/-- Parser state for `exDoc2b`. -/
def exP2 : XAMLParser := ⟨some exDoc2b, ""⟩

/-- Namespace table declaring one UiPath-like namespace. -/
def exNs5 : List (String × String) := [("ui", "http://uipath")]

/-- An ExcelApplicationCard leaf. -/
def exExcel5 : Element := .mk (qualTag "http://uipath" "ExcelApplicationCard") [] none []

/-- A wrapper Sequence between the loop and the Excel scope. -/
def exWrapper5 : Element := .mk (qualTag "http://uipath" "Sequence") [] none [exExcel5]

/-- A ForEachRow whose Excel scope sits below an intervening wrapper. -/
def exLoop5 : Element := .mk (qualTag "http://uipath" "ForEachRow") [] none [exWrapper5]

/-- Document containing `exLoop5`. -/
def exDoc5 : Element := .mk (qualTag "http://uipath" "Body") [] none [exLoop5]

/-- A document whose root carries a `Url` attribute that is not an
`http(s)` URL. -/
def exDoc6 : Element := .mk "root" [("Url", "hello")] none []

/-- A two-element document with tags outside the activity allow-list. -/
def exDoc7 : Element := .mk "Foo" [] none [.mk "Bar" [] none []]

/-- A document declaring two Variable elements, both without a `Name`
attribute (so both default to the name "Unknown"). -/
def exDoc8 : Element :=
  .mk "root" [] none [.mk "Variable" [] none [], .mk "Variable" [] none []]

/-- The raw serialization of `exDoc8`; it does not contain the word
"Unknown". -/
def exRaw8 : String := "<root><Variable/><Variable/></root>"

/-- A namespace table that does not cover the un-namespaced TryCatch of
`exDoc9`. -/
def exNs9 : List (String × String) := [("a", "http://other")]

/-- A document with an un-namespaced TryCatch child. -/
def exDoc9 : Element := .mk "root" [] none [.mk "TryCatch" [] none []]

/-- A namespace table without an `x` prefix. -/
def exNs10 : List (String × String) := [("default", "http://ns")]

/-- A valid document with one Variable element in the declared default
namespace. -/
def exDoc10 : Element :=
  .mk (qualTag "http://ns" "Activity") [] none
    [.mk (qualTag "http://ns" "Variable") [("Name", "myVar")] none []]

/-! ## Helper lemmas -/

/-- A fold that conditionally appends is a filter-then-map. -/
theorem foldl_filter_append {α β : Type} (p : α → Bool) (f : α → β) :
    ∀ (l : List α) (init : List β),
      l.foldl (fun acc e => if p e then acc ++ [f e] else acc) init
        = init ++ (l.filter p).map f := by
  intro l
  induction l with
  | nil => intro init; simp
  | cons e es ih =>
    intro init
    by_cases h : p e <;>
      simp [List.foldl_cons, h, ih, List.filter_cons, List.append_assoc]

/-- A filterMap whose function is a guarded `some` is a filter-then-map. -/
theorem filterMap_ite_eq_map_filter {α β : Type} (P : α → Prop) [DecidablePred P]
    (f : α → β) (l : List α) :
    (l.filterMap fun a => if P a then some (f a) else none)
      = (l.filter fun a => decide (P a)).map f := by
  induction l with
  | nil => rfl
  | cons a as ih =>
    by_cases h : P a <;> simp [List.filterMap_cons, List.filter_cons, h, ih]

/-- Value of the scoring fold: each High issue subtracts 15, each Medium
issue 10, nothing else counts. -/
theorem health_fold (issues : List Issue) : ∀ s : Int,
    issues.foldl (fun s i =>
        if i.severity == "High" then s - 15
        else if i.severity == "Medium" then s - 10
        else s) s
      = s - 15 * (countSeverity issues "High" : Int)
          - 10 * (countSeverity issues "Medium" : Int) := by
  induction issues with
  | nil => intro s; simp [countSeverity]
  | cons i is ih =>
    intro s
    rw [List.foldl_cons, ih]
    unfold countSeverity
    simp only [List.filter_cons]
    by_cases h1 : i.severity = "High"
    · simp [h1]
      ring
    · by_cases h2 : i.severity = "Medium"
      · simp [h1, h2]
        ring
      · simp [h1, h2]

/-! ## Claim theorems -/

/-- C1.  For every list of Issues the health score equals
`max 0 (100 - 15·#High - 10·#Medium)`; it lies in `[0, 100]`; appending
only Critical- or Low-severity issues never changes it; and with zero
High and zero Medium issues it is exactly 100. -/
theorem health_score_formula (issues : List Issue) :
    WorkflowAnalyzer.calculate_health_score issues
      = max 0 (100 - 15 * (countSeverity issues "High" : Int)
                   - 10 * (countSeverity issues "Medium" : Int))
    ∧ 0 ≤ WorkflowAnalyzer.calculate_health_score issues
    ∧ WorkflowAnalyzer.calculate_health_score issues ≤ 100
    ∧ (∀ extra : List Issue,
        (∀ i ∈ extra, i.severity = "Critical" ∨ i.severity = "Low") →
        WorkflowAnalyzer.calculate_health_score (issues ++ extra)
          = WorkflowAnalyzer.calculate_health_score issues)
    ∧ (countSeverity issues "High" = 0 → countSeverity issues "Medium" = 0 →
        WorkflowAnalyzer.calculate_health_score issues = 100) := by
  have hform : ∀ l : List Issue,
      WorkflowAnalyzer.calculate_health_score l
        = max 0 (100 - 15 * (countSeverity l "High" : Int)
                     - 10 * (countSeverity l "Medium" : Int)) := by
    intro l
    unfold WorkflowAnalyzer.calculate_health_score
    rw [health_fold l 100]
  refine ⟨hform issues, ?_, ?_, ?_, ?_⟩
  · rw [hform issues]; exact le_max_left _ _
  · rw [hform issues]
    apply max_le (by norm_num)
    have h1 : (0 : Int) ≤ (countSeverity issues "High" : Int) := Int.natCast_nonneg _
    have h2 : (0 : Int) ≤ (countSeverity issues "Medium" : Int) := Int.natCast_nonneg _
    omega
  · intro extra hex
    have hcount : ∀ sev, sev = "High" ∨ sev = "Medium" →
        countSeverity (issues ++ extra) sev = countSeverity issues sev := by
      intro sev hsev
      unfold countSeverity
      rw [List.filter_append]
      have : extra.filter (fun i => i.severity == sev) = [] := by
        rw [List.filter_eq_nil_iff]
        intro i hi
        rcases hex i hi with h | h <;> rcases hsev with h' | h' <;>
          simp [h, h']
      rw [this, List.append_nil]
    rw [hform (issues ++ extra), hform issues,
      hcount "High" (Or.inl rfl), hcount "Medium" (Or.inr rfl)]
  · intro hH hM
    rw [hform issues, hH, hM]
    norm_num

/-- C1 witness: a single High issue scores nonnegatively and appending a
Low issue leaves the score unchanged. -/
theorem health_score_formula_witness :
    0 ≤ WorkflowAnalyzer.calculate_health_score [missing_error_handler_issue]
    ∧ WorkflowAnalyzer.calculate_health_score
        ([missing_error_handler_issue] ++ [unused_variable_issue "a" "b"])
      = WorkflowAnalyzer.calculate_health_score [missing_error_handler_issue] :=
  ⟨(health_score_formula [missing_error_handler_issue]).2.1,
   (health_score_formula [missing_error_handler_issue]).2.2.2.1
     [unused_variable_issue "a" "b"]
     (by intro i hi; simp only [List.mem_singleton] at hi; subst hi; right; rfl)⟩

/-- C3.  A workflow input that is not well-formed XML (parse capability
returns nothing) makes `analyze_workflow` fail with an error and no
partial `WorkflowAnalysis`; every well-formed input yields `Except.ok`
of the full analysis. -/
theorem analyze_workflow_parse_contract :
    (∀ a : WorkflowAnalysis, analyze_workflow none ≠ Except.ok a)
    ∧ (∀ (root : Element) (raw : String),
        analyze_workflow (some (root, raw))
          = Except.ok (WorkflowAnalyzer.analyze ⟨some root, raw⟩ none)) := by
  constructor
  · intro a h
    simp [analyze_workflow] at h
  · intro root raw
    rfl

/-- C4.  A missing, unreadable or malformed metadata sidecar leaves the
config empty, so the analysis still completes with
`workflow_name = "Unknown"`, no dependencies, and is identical to an
analysis run with no metadata path at all. -/
theorem metadata_failure_defaults (p : XAMLParser) (o : SidecarOutcome)
    (h : o = SidecarOutcome.missing ∨ o = SidecarOutcome.unreadable
         ∨ o = SidecarOutcome.malformed) :
    (WorkflowAnalyzer.analyze p (JSONConfigParser.parse o).2).workflow_name = "Unknown"
    ∧ (WorkflowAnalyzer.analyze p (JSONConfigParser.parse o).2).dependencies = []
    ∧ WorkflowAnalyzer.analyze p (JSONConfigParser.parse o).2
        = WorkflowAnalyzer.analyze p (JSONConfigParser.parse SidecarOutcome.noPath).2 := by
  rcases h with h | h | h <;> subst h <;> exact ⟨rfl, rfl, rfl⟩

/-- C4 witness: `metadata_failure_defaults` at a malformed sidecar. -/
theorem metadata_failure_defaults_witness :
    (WorkflowAnalyzer.analyze ⟨none, ""⟩
        (JSONConfigParser.parse SidecarOutcome.malformed).2).workflow_name = "Unknown"
    ∧ (WorkflowAnalyzer.analyze ⟨none, ""⟩
        (JSONConfigParser.parse SidecarOutcome.malformed).2).dependencies = [] :=
  ⟨(metadata_failure_defaults ⟨none, ""⟩ SidecarOutcome.malformed
      (Or.inr (Or.inr rfl))).1,
   (metadata_failure_defaults ⟨none, ""⟩ SidecarOutcome.malformed
      (Or.inr (Or.inr rfl))).2.1⟩

/-- C7 (amended).  Activity extraction returns one Activity per Element
whose local tag name is on the fixed allow-list, in document order, with
type = local tag name and name = `DisplayName` attribute defaulting to
"Unknown" — it does filter, and a parser whose root is `None` or
childless yields the empty list. -/
theorem get_activities_allowlist_characterisation (r : Element) (raw : String)
    (h : r.children.isEmpty = false) :
    XAMLParser.get_activities ⟨some r, raw⟩
      = (r.iter.filter fun e => activityTagList.contains (localName e.tag)).map
          fun e => ⟨localName e.tag, e.getD "DisplayName" "Unknown", e.attrib⟩ := by
  simp only [XAMLParser.get_activities, h, Bool.false_eq_true, if_false]
  exact foldl_filter_append _ _ r.iter []

/-- C7 witness: the characterisation at a concrete document. -/
theorem get_activities_allowlist_characterisation_witness :
    XAMLParser.get_activities ⟨some exDoc2b, ""⟩
      = (exDoc2b.iter.filter fun e => activityTagList.contains (localName e.tag)).map
          fun e => ⟨localName e.tag, e.getD "DisplayName" "Unknown", e.attrib⟩ :=
  get_activities_allowlist_characterisation exDoc2b "" rfl

/-- C7 counterexample: a two-element document with tags outside the
allow-list yields zero Activities, not one per element. -/
theorem get_activities_filters_elements :
    (XAMLParser.get_activities ⟨some exDoc7, ""⟩).length = 0
    ∧ exDoc7.iter.length = 2 := by
  exact ⟨rfl, rfl⟩

/-- C8 (amended).  Unused-variable detection emits exactly one Issue per
declared variable entry whose name has at most one word-boundary
occurrence in the raw text, in declaration order, and no Issue for
entries whose name occurs at least twice.  (Several declared variables
sharing one such name each yield their own Issue.) -/
theorem find_unused_variables_characterisation (p : XAMLParser) :
    WorkflowAnalyzer.find_unused_variables p
      = ((p.get_variables.filter fun v => decide (wbCount p.raw_content v.1 ≤ 1)).map
          fun v => unused_variable_issue v.1 v.2) := by
  unfold WorkflowAnalyzer.find_unused_variables
  exact filterMap_ite_eq_map_filter _ _ _

/-- C8 counterexample: two Variable elements without a `Name` attribute
both default to the name "Unknown", which occurs zero times in the raw
text, so the analysis emits two "Unused variable" Issues for that one
name — not exactly one. -/
theorem unused_variable_duplicate_names :
    WorkflowAnalyzer.find_unused_variables ⟨some exDoc8, exRaw8⟩
      = [unused_variable_issue "Unknown" "Unknown",
         unused_variable_issue "Unknown" "Unknown"]
    ∧ wbCount exRaw8 "Unknown" = 0 := by
  constructor
  · decide
  · decide

/-- `charListLt` is irreflexive. -/
theorem charListLt_irrefl : ∀ l : List Char, charListLt l l = false := by
  intro l
  induction l with
  | nil => rfl
  | cons c cs ih => simp [charListLt, ih, lt_irrefl]

/-- `charListLt` is transitive. -/
theorem charListLt_trans : ∀ {a b c : List Char},
    charListLt a b = true → charListLt b c = true → charListLt a c = true := by
  intro a
  induction a with
  | nil =>
    intro b c hab hbc
    cases b with
    | nil => simp [charListLt] at hab
    | cons y ys =>
      cases c with
      | nil => simp [charListLt] at hbc
      | cons z zs => simp [charListLt]
  | cons x xs ih =>
    intro b c hab hbc
    cases b with
    | nil => simp [charListLt] at hab
    | cons y ys =>
      cases c with
      | nil => simp [charListLt] at hbc
      | cons z zs =>
        simp only [charListLt, Bool.or_eq_true, Bool.and_eq_true,
          decide_eq_true_eq, beq_iff_eq] at hab hbc ⊢
        rcases hab with h1 | ⟨he1, h1⟩
        · rcases hbc with h2 | ⟨he2, h2⟩
          · exact Or.inl (lt_trans h1 h2)
          · exact Or.inl (by rw [← he2]; exact h1)
        · rcases hbc with h2 | ⟨he2, h2⟩
          · exact Or.inl (by rw [he1]; exact h2)
          · exact Or.inr ⟨he1.trans he2, ih h1 h2⟩

/-- `charListLt` is total (trichotomy). -/
theorem charListLt_total : ∀ a b : List Char,
    a = b ∨ charListLt a b = true ∨ charListLt b a = true := by
  intro a
  induction a with
  | nil =>
    intro b
    cases b with
    | nil => exact Or.inl rfl
    | cons y ys => exact Or.inr (Or.inl (by simp [charListLt]))
  | cons x xs ih =>
    intro b
    cases b with
    | nil => exact Or.inr (Or.inr (by simp [charListLt]))
    | cons y ys =>
      rcases lt_trichotomy x y with h | h | h
      · exact Or.inr (Or.inl (by simp [charListLt, h]))
      · rcases ih ys with h2 | h2 | h2
        · exact Or.inl (by rw [h, h2])
        · exact Or.inr (Or.inl (by simp [charListLt, h, h2]))
        · exact Or.inr (Or.inr (by simp [charListLt, h, h2]))
      · exact Or.inr (Or.inr (by simp [charListLt, h]))

/-- `strLt` transitivity. -/
theorem strLt_trans {a b c : String} (h1 : strLt a b = true)
    (h2 : strLt b c = true) : strLt a c = true :=
  charListLt_trans h1 h2

/-- `strLt` irreflexivity. -/
theorem strLt_irrefl (a : String) : strLt a a = false :=
  charListLt_irrefl _

/-- `strLt` totality. -/
theorem strLt_total (a b : String) :
    a = b ∨ strLt a b = true ∨ strLt b a = true := by
  rcases charListLt_total a.toList b.toList with h | h | h
  · exact Or.inl (String.ext h)
  · exact Or.inr (Or.inl h)
  · exact Or.inr (Or.inr h)

/-- Membership in an `insertSorted` result. -/
theorem mem_insertSorted {x z : String} : ∀ {l : List String},
    z ∈ insertSorted x l ↔ z = x ∨ z ∈ l := by
  intro l
  induction l with
  | nil => simp [insertSorted]
  | cons y ys ih =>
    by_cases h : x = y
    · subst h
      have hrw : insertSorted x (x :: ys) = x :: ys := by simp [insertSorted]
      rw [hrw]
      simp only [List.mem_cons]
      tauto
    · by_cases h2 : strLt x y = true
      · simp only [insertSorted, if_neg h, if_pos h2, List.mem_cons]
      · simp only [insertSorted, if_neg h, if_neg h2, List.mem_cons, ih]
        tauto

/-- `insertSorted` preserves strict sortedness. -/
theorem pairwise_insertSorted (x : String) : ∀ {l : List String},
    l.Pairwise (fun a b => strLt a b = true) →
    (insertSorted x l).Pairwise (fun a b => strLt a b = true) := by
  intro l
  induction l with
  | nil =>
    intro _
    simp [insertSorted]
  | cons y ys ih =>
    intro hp
    rcases List.pairwise_cons.mp hp with ⟨hy, hys⟩
    by_cases h : x = y
    · simpa [insertSorted, if_pos h] using hp
    · by_cases h2 : strLt x y = true
      · simp only [insertSorted, if_neg h, if_pos h2]
        refine List.pairwise_cons.mpr ⟨?_, hp⟩
        intro z hz
        rcases List.mem_cons.mp hz with rfl | hz'
        · exact h2
        · exact strLt_trans h2 (hy z hz')
      · have hyx : strLt y x = true := by
          rcases strLt_total x y with h3 | h3 | h3
          · exact absurd h3 h
          · exact absurd h3 h2
          · exact h3
        simp only [insertSorted, if_neg h, if_neg h2]
        refine List.pairwise_cons.mpr ⟨?_, ih hys⟩
        intro z hz
        rcases mem_insertSorted.mp hz with rfl | hz'
        · exact hyx
        · exact hy z hz'

/-- Strictly sorted lists are duplicate-free. -/
theorem nodup_of_pairwise_strLt {l : List String}
    (h : l.Pairwise (fun a b => strLt a b = true)) : l.Nodup := by
  refine h.imp ?_
  intro a b hab he
  subst he
  rw [strLt_irrefl] at hab
  exact Bool.false_ne_true hab

/-- Folding `insertSorted` keeps only input members and yields a strictly
sorted accumulator. -/
theorem sortedSet_fold_spec (l : List String) : ∀ acc : List String,
    acc.Pairwise (fun a b => strLt a b = true) →
    (∀ z ∈ l.foldl (fun acc s => insertSorted s acc) acc, z ∈ acc ∨ z ∈ l)
    ∧ (l.foldl (fun acc s => insertSorted s acc) acc).Pairwise
        (fun a b => strLt a b = true) := by
  induction l with
  | nil =>
    intro acc h
    exact ⟨fun z hz => Or.inl hz, h⟩
  | cons s ss ih =>
    intro acc h
    obtain ⟨hmem, hp⟩ := ih (insertSorted s acc) (pairwise_insertSorted s h)
    refine ⟨?_, hp⟩
    intro z hz
    rcases hmem z hz with hz' | hz'
    · rcases mem_insertSorted.mp hz' with rfl | hz''
      · exact Or.inr (List.mem_cons_self _ _)
      · exact Or.inl hz''
    · exact Or.inr (List.mem_cons_of_mem _ hz')

/-- `sortedSet` is a subset of its input and strictly sorted. -/
theorem sortedSet_spec (l : List String) :
    (∀ z ∈ sortedSet l, z ∈ l)
    ∧ (sortedSet l).Pairwise (fun a b => strLt a b = true) := by
  obtain ⟨hmem, hp⟩ := sortedSet_fold_spec l [] List.Pairwise.nil
  refine ⟨?_, hp⟩
  intro z hz
  rcases hmem z hz with hz' | hz'
  · simp at hz'
  · exact hz'

/-- Every string the URL collector gathers starts with `http://` or
`https://`. -/
theorem collectUrls_http (r : Element) :
    ∀ u ∈ collectUrls r, isHttpString u = true := by
  intro u hu
  unfold collectUrls at hu
  rcases List.mem_append.mp hu with hu | hu
  · rw [List.mem_flatMap] at hu
    obtain ⟨e, _, hu⟩ := hu
    rw [List.mem_flatMap] at hu
    obtain ⟨kv, _, hu⟩ := hu
    rcases List.mem_append.mp hu with hu | hu
    · by_cases hc : (urlAttrNameHit kv.1 && isHttpString kv.2) = true
      · rw [if_pos hc] at hu
        rcases List.mem_singleton.mp hu with rfl
        simp only [Bool.and_eq_true] at hc
        exact hc.2
      · rw [if_neg hc] at hu
        simp at hu
    · by_cases hc : isHttpString kv.2 = true
      · rw [if_pos hc] at hu
        rcases List.mem_singleton.mp hu with rfl
        exact hc
      · rw [if_neg hc] at hu
        simp at hu
  · rw [List.mem_filterMap] at hu
    obtain ⟨e, _, he⟩ := hu
    split at he
    · split at he
      · split at he
        · rcases Option.some.inj he with rfl
          assumption
        · exact absurd he (by simp)
      · exact absurd he (by simp)
    · exact absurd he (by simp)

/-- Membership characterisation of the namespace-table search of
main.py's `find_all_elements`. -/
theorem mem_find_all_elements (namespaces : List (String × String))
    (root : Element) (tag : String) (e : Element) :
    e ∈ UiPathXAMLAnalyzer.find_all_elements namespaces root tag
      ↔ e ∈ root.descendants
        ∧ ∃ uri ∈ namespaces.map Prod.snd, e.tag = qualTag uri tag := by
  unfold UiPathXAMLAnalyzer.find_all_elements
  simp only [List.mem_flatMap, List.mem_filter, List.mem_map, beq_iff_eq]
  constructor
  · rintro ⟨ns, hns, hd, ht⟩
    exact ⟨hd, ns.2, ⟨ns, hns, rfl⟩, ht⟩
  · rintro ⟨hd, uri, ⟨ns, hns, rfl⟩, ht⟩
    exact ⟨ns, hns, hd, ht⟩

/-- An element nested under `parent` with a tag qualified by a recorded
namespace URI is found by `_find_nested_elements`. -/
theorem mem_find_nested_of (namespaces : List (String × String))
    (parent e : Element) (tags : List String) (t uri : String)
    (ht : t ∈ tags) (hu : uri ∈ namespaces.map Prod.snd)
    (he : e ∈ parent.descendants) (htag : e.tag = qualTag uri t) :
    e ∈ UiPathXAMLAnalyzer.find_nested_elements namespaces parent tags := by
  unfold UiPathXAMLAnalyzer.find_nested_elements
  rw [List.mem_flatMap]
  refine ⟨t, ht, ?_⟩
  rw [List.mem_flatMap]
  obtain ⟨ns, hns, hsnd⟩ := List.mem_map.mp hu
  refine ⟨ns, hns, ?_⟩
  rw [List.mem_filter]
  exact ⟨he, by simp [htag, hsnd]⟩

/-- C9 (amended).  `find_all_elements` searches exactly the namespace
URIs recorded in the NamespaceTable — no wildcard fallback, so elements
whose namespace is not in the table (or that carry no namespace) are
never found — and for a tag with no matching element it returns the
empty list and never raises. -/
theorem find_all_elements_characterisation (namespaces : List (String × String))
    (root : Element) (tag : String) :
    (∀ e, e ∈ UiPathXAMLAnalyzer.find_all_elements namespaces root tag
        ↔ e ∈ root.descendants
          ∧ ∃ uri ∈ namespaces.map Prod.snd, e.tag = qualTag uri tag)
    ∧ ((∀ e ∈ root.descendants, ∀ uri ∈ namespaces.map Prod.snd,
          e.tag ≠ qualTag uri tag)
        → UiPathXAMLAnalyzer.find_all_elements namespaces root tag = []) := by
  refine ⟨mem_find_all_elements namespaces root tag, ?_⟩
  intro h
  rw [List.eq_nil_iff_forall_not_mem]
  intro e he
  rcases (mem_find_all_elements namespaces root tag e).mp he with ⟨hd, uri, hu, htag⟩
  exact h e hd uri hu htag

/-- C9 witness: the empty-on-no-match half at a concrete document. -/
theorem find_all_elements_characterisation_witness :
    UiPathXAMLAnalyzer.find_all_elements exNs9 exDoc9 "Sequence" = [] :=
  (find_all_elements_characterisation exNs9 exDoc9 "Sequence").2 (by decide)

/-- C9 counterexample: an un-namespaced `TryCatch` element exists in the
document (a wildcard `{*}` search finds it), yet `find_all_elements`
returns nothing because it only tries the recorded namespace URIs. -/
theorem find_all_elements_no_wildcard :
    UiPathXAMLAnalyzer.find_all_elements exNs9 exDoc9 "TryCatch" = []
    ∧ (wildcardDescendants exDoc9 "TryCatch").length = 1 :=
  ⟨rfl, rfl⟩

/-- C5.  A ForEachRow (in a recorded namespace) with an
ExcelApplicationCard or ExcelProcessScopeX element nested anywhere
beneath it — any number of wrappers in between — makes
`check_excel_operations` emit the scope-in-loop Issue at CRITICAL
severity. -/
theorem scope_in_loop_detected (namespaces : List (String × String))
    (root loop e : Element) (uriL uriE : String)
    (hL : uriL ∈ namespaces.map Prod.snd) (hE : uriE ∈ namespaces.map Prod.snd)
    (hloop : loop ∈ root.descendants)
    (hloopTag : loop.tag = qualTag uriL "ForEachRow")
    (he : e ∈ loop.descendants)
    (heTag : e.tag = qualTag uriE "ExcelApplicationCard"
             ∨ e.tag = qualTag uriE "ExcelProcessScopeX") :
    UiPathXAMLAnalyzer.scope_in_loop_issue
      ∈ UiPathXAMLAnalyzer.check_excel_operations namespaces root
    ∧ UiPathXAMLAnalyzer.scope_in_loop_issue.severity = "CRITICAL" := by
  refine ⟨?_, rfl⟩
  have hmem : e ∈ UiPathXAMLAnalyzer.find_nested_elements namespaces loop
      ["ExcelProcessScopeX", "ExcelApplicationCard"] := by
    rcases heTag with htag | htag
    · exact mem_find_nested_of namespaces loop e _ "ExcelApplicationCard" uriE
        (by simp) hE he htag
    · exact mem_find_nested_of namespaces loop e _ "ExcelProcessScopeX" uriE
        (by simp) hE he htag
  have hfalse : (UiPathXAMLAnalyzer.find_nested_elements namespaces loop
      ["ExcelProcessScopeX", "ExcelApplicationCard"]).isEmpty = false := by
    rcases hq : UiPathXAMLAnalyzer.find_nested_elements namespaces loop
        ["ExcelProcessScopeX", "ExcelApplicationCard"] with _ | ⟨a, as⟩
    · rw [hq] at hmem; simp at hmem
    · rfl
  unfold UiPathXAMLAnalyzer.check_excel_operations
  apply List.mem_append_left
  rw [List.mem_flatMap]
  refine ⟨loop, ?_, ?_⟩
  · exact (mem_find_all_elements namespaces root "ForEachRow" loop).mpr
      ⟨hloop, uriL, hL, hloopTag⟩
  · rw [hfalse]
    simp

/-- C5 witness: a ForEachRow wrapping a Sequence wrapping an
ExcelApplicationCard triggers the scope-in-loop Issue. -/
theorem scope_in_loop_detected_witness :
    UiPathXAMLAnalyzer.scope_in_loop_issue
      ∈ UiPathXAMLAnalyzer.check_excel_operations exNs5 exDoc5
    ∧ UiPathXAMLAnalyzer.scope_in_loop_issue.severity = "CRITICAL" :=
  scope_in_loop_detected exNs5 exDoc5 exLoop5 exExcel5 "http://uipath" "http://uipath"
    (by decide) (by decide)
    (by simp [exDoc5, exLoop5, exWrapper5, exExcel5, Element.descendants,
      iterList, Element.iter])
    rfl
    (by simp [exLoop5, exWrapper5, exExcel5, Element.descendants,
      iterList, Element.iter])
    (Or.inl rfl)

/-- C6 (amended).  The module's `get_urls` returns only strings starting
with `http://` or `https://`, strictly sorted in code-point order and
therefore duplicate-free, and (being a pure function of the document) two
runs on the same document agree.  (main.py's `extract_urls` does NOT
share the well-formedness guarantee — see the counterexample.) -/
theorem get_urls_wellformed_sorted (p : XAMLParser) :
    (∀ u ∈ p.get_urls, isHttpString u = true)
    ∧ (p.get_urls).Pairwise (fun a b => strLt a b = true)
    ∧ (p.get_urls).Nodup
    ∧ p.get_urls = p.get_urls := by
  have hcases : p.get_urls = [] ∨ ∃ r, p.get_urls = sortedSet (collectUrls r) := by
    unfold XAMLParser.get_urls
    split
    · exact Or.inl rfl
    · split
      · exact Or.inl rfl
      · exact Or.inr ⟨_, rfl⟩
  rcases hcases with h | ⟨r, h⟩
  · rw [h]
    exact ⟨by simp, List.Pairwise.nil, List.nodup_nil, rfl⟩
  · rw [h]
    obtain ⟨hsub, hp⟩ := sortedSet_spec (collectUrls r)
    exact ⟨fun u hu => collectUrls_http r u (hsub u hu), hp,
      nodup_of_pairwise_strLt hp, rfl⟩

/-- C6 witness: `get_urls` on a concrete document. -/
theorem get_urls_wellformed_sorted_witness :
    ((XAMLParser.get_urls ⟨some exDoc7, ""⟩).Nodup)
    ∧ (∀ u ∈ XAMLParser.get_urls ⟨some exDoc7, ""⟩, isHttpString u = true) :=
  ⟨(get_urls_wellformed_sorted ⟨some exDoc7, ""⟩).2.2.1,
   (get_urls_wellformed_sorted ⟨some exDoc7, ""⟩).1⟩

/-- C6 counterexample: main.py's `extract_urls` adds the stripped value
of any attribute whose name contains "Url"/"Uri" without checking it is
an `http(s)://` string, so the extraction can return strings that do not
match `^https?://`. -/
theorem extract_urls_non_url_member :
    "hello" ∈ UiPathXAMLAnalyzer.extract_urls exDoc6
    ∧ isHttpString "hello" = false := by
  exact ⟨by decide, by decide⟩

/-- C10.  On a syntactically valid document that declares no `x`
namespace prefix but contains a Variable element in a recorded
namespace, `check_variables` raises a KeyError (the subscript
`self.namespaces['x']`), so the full analysis aborts instead of
degrading to defaults. -/
theorem check_variables_keyerror :
    UiPathXAMLAnalyzer.check_variables exNs10 exDoc10
      = Except.error "KeyError: \x27x\x27"
    ∧ (UiPathXAMLAnalyzer.find_all_elements exNs10 exDoc10 "Variable").length = 1 :=
  ⟨rfl, rfl⟩

/-- Every issue from the Catch-block logging rule carries its fixed
title. -/
theorem improper_logging_title (p : XAMLParser) :
    ∀ i ∈ WorkflowAnalyzer.check_for_improper_error_logging p,
      i.title = "Hatalı Loglama Seviyesi" := by
  intro i hi
  unfold WorkflowAnalyzer.check_for_improper_error_logging at hi
  split at hi
  · simp at hi
  · rw [List.mem_flatMap] at hi
    obtain ⟨tc, _, hi⟩ := hi
    split at hi
    · simp at hi
    · rw [List.mem_flatMap] at hi
      obtain ⟨ce, _, hi⟩ := hi
      split at hi
      · rw [List.mem_filterMap] at hi
        obtain ⟨lm, _, hlm⟩ := hi
        split at hlm
        · rcases Option.some.inj hlm with rfl
          rfl
        · simp at hlm
      · simp at hi

/-- Every issue from the empty-block rule carries one of its four fixed
titles. -/
theorem empty_blocks_title (root : Element) :
    ∀ i ∈ WorkflowAnalyzer.find_empty_blocks root,
      i.title = "Boş Try Bloğu" ∨ i.title = "Boş Catch Bloğu"
      ∨ i.title = "Boş Then Bloğu" ∨ i.title = "Boş Else Bloğu" := by
  intro i hi
  unfold WorkflowAnalyzer.find_empty_blocks at hi
  rw [List.mem_append] at hi
  rcases hi with hi | hi
  · rw [List.mem_flatMap] at hi
    obtain ⟨tc, _, hi⟩ := hi
    rw [List.mem_append] at hi
    rcases hi with hi | hi
    · split at hi
      · rcases List.mem_singleton.mp hi with rfl
        exact Or.inl rfl
      · split at hi
        · rcases List.mem_singleton.mp hi with rfl
          exact Or.inl rfl
        · simp at hi
    · split at hi
      · simp at hi
      · rw [List.mem_flatMap] at hi
        obtain ⟨ce, _, hi⟩ := hi
        split at hi
        · rcases List.mem_singleton.mp hi with rfl
          exact Or.inr (Or.inl rfl)
        · split at hi
          · rcases List.mem_singleton.mp hi with rfl
            exact Or.inr (Or.inl rfl)
          · split at hi
            · rcases List.mem_singleton.mp hi with rfl
              exact Or.inr (Or.inl rfl)
            · simp at hi
          · simp at hi
  · rw [List.mem_flatMap] at hi
    obtain ⟨ifEl, _, hi⟩ := hi
    rw [List.mem_append] at hi
    rcases hi with hi | hi
    · split at hi
      · rcases List.mem_singleton.mp hi with rfl
        exact Or.inr (Or.inr (Or.inl rfl))
      · split at hi
        · rcases List.mem_singleton.mp hi with rfl
          exact Or.inr (Or.inr (Or.inl rfl))
        · split at hi
          · rcases List.mem_singleton.mp hi with rfl
            exact Or.inr (Or.inr (Or.inl rfl))
          · simp at hi
        · simp at hi
    · split at hi
      · simp at hi
      · split at hi
        · rcases List.mem_singleton.mp hi with rfl
          exact Or.inr (Or.inr (Or.inr rfl))
        · simp at hi

/-- Every issue from the unused-variable rule carries its fixed title. -/
theorem unused_variables_title (p : XAMLParser) :
    ∀ i ∈ WorkflowAnalyzer.find_unused_variables p,
      i.title = "Kullanılmayan Değişken" := by
  intro i hi
  unfold WorkflowAnalyzer.find_unused_variables at hi
  rw [List.mem_filterMap] at hi
  obtain ⟨v, _, hv⟩ := hi
  split at hv
  · rcases Option.some.inj hv with rfl
    rfl
  · simp at hv

/-- C2 (amended).  main.py emits its CRITICAL missing-error-handling
Issue exactly when the namespace search finds zero TryCatch elements —
the structural-container count does not gate it — while the module emits
its High "Error Handler Eksikliği" Issue exactly when no TryCatch
activity is extracted and more than 5 activities are; in particular a
document with no TryCatch and more than 5 extracted activities always
produces the Issue. -/
theorem missing_error_handling_characterisation
    (namespaces : List (String × String)) (root : Element) (p : XAMLParser) :
    (UiPathXAMLAnalyzer.no_trycatch_issue
        ∈ UiPathXAMLAnalyzer.check_error_handling namespaces root
      ↔ (UiPathXAMLAnalyzer.find_all_elements namespaces root "TryCatch").length = 0)
    ∧ (missing_error_handler_issue ∈ WorkflowAnalyzer.detect_issues p
      ↔ (¬ (p.get_activities.any fun a => a.type == "TryCatch")
         ∧ p.get_activities.length > 5))
    ∧ ((¬ (p.get_activities.any fun a => a.type == "TryCatch")
        ∧ p.get_activities.length > 5)
      → missing_error_handler_issue ∈ WorkflowAnalyzer.detect_issues p
        ∧ missing_error_handler_issue.severity = "High"
        ∧ UiPathXAMLAnalyzer.no_trycatch_issue.severity = "CRITICAL") := by
  have hmod : missing_error_handler_issue ∈ WorkflowAnalyzer.detect_issues p
      ↔ (¬ (p.get_activities.any fun a => a.type == "TryCatch")
         ∧ p.get_activities.length > 5) := by
    constructor
    · intro hmem
      unfold WorkflowAnalyzer.detect_issues at hmem
      rcases List.mem_append.mp hmem with hmem | hmem
      · rcases List.mem_append.mp hmem with hmem | hmem
        · split at hmem
          · assumption
          · simp at hmem
        · exact absurd (improper_logging_title p _ hmem) (by decide)
      · unfold WorkflowAnalyzer.find_logic_flaws at hmem
        split at hmem
        · simp at hmem
        · rcases List.mem_append.mp hmem with hmem | hmem
          · rcases empty_blocks_title _ _ hmem with h | h | h | h <;>
              exact absurd h (by decide)
          · exact absurd (unused_variables_title p _ hmem) (by decide)
    · intro hc
      unfold WorkflowAnalyzer.detect_issues
      apply List.mem_append_left
      apply List.mem_append_left
      rw [if_pos hc]
      exact List.mem_singleton.mpr rfl
  refine ⟨?_, hmod, ?_⟩
  · constructor
    · intro hmem
      by_cases h : (UiPathXAMLAnalyzer.find_all_elements namespaces root "TryCatch").length = 0
      · exact h
      · exfalso
        unfold UiPathXAMLAnalyzer.check_error_handling at hmem
        rw [if_neg h] at hmem
        split at hmem
        · rcases List.mem_singleton.mp hmem with heq
          have hsev := congrArg UiPathXAMLAnalyzer.Issue.severity heq
          simp [UiPathXAMLAnalyzer.no_trycatch_issue,
            UiPathXAMLAnalyzer.sparse_trycatch_issue] at hsev
        · simp at hmem
    · intro h
      unfold UiPathXAMLAnalyzer.check_error_handling
      rw [if_pos h]
      exact List.mem_singleton.mpr rfl
  · intro hc
    exact ⟨hmod.mpr hc, rfl, rfl⟩

/-- C2 witness: six allow-listed activities and no TryCatch trigger the
module's missing-error-handler Issue. -/
theorem missing_error_handling_characterisation_witness :
    missing_error_handler_issue ∈ WorkflowAnalyzer.detect_issues exP2
    ∧ missing_error_handler_issue.severity = "High" := by
  have h := (missing_error_handling_characterisation exNs2 exDoc2 exP2).2.2
    ⟨by decide, by decide⟩
  exact ⟨h.1, h.2.1⟩

/-- C2 counterexample: on an empty root with zero structural containers
and zero extracted activities (so the claimed trigger condition is
false), main.py still emits the CRITICAL missing-error-handling Issue —
zero TryCatch alone suffices. -/
theorem missing_error_handling_not_container_gated :
    UiPathXAMLAnalyzer.check_error_handling exNs2 exDoc2
      = [UiPathXAMLAnalyzer.no_trycatch_issue]
    ∧ (UiPathXAMLAnalyzer.find_all_elements exNs2 exDoc2 "Sequence").length
      + (UiPathXAMLAnalyzer.find_all_elements exNs2 exDoc2 "Flowchart").length = 0
    ∧ (XAMLParser.get_activities ⟨some exDoc2, ""⟩).length = 0 :=
  ⟨rfl, rfl, rfl⟩

/-- C3 witness: a concrete well-formed document yields `Except.ok`. -/
theorem analyze_workflow_parse_contract_witness :
    analyze_workflow (some (exDoc7, "")) =
      Except.ok (WorkflowAnalyzer.analyze ⟨some exDoc7, ""⟩ none) :=
  analyze_workflow_parse_contract.2 exDoc7 ""
